import Mathlib

/-!
# Verification of the WWAQ glossar / Wozu-anchoring system

Shallow embedding of the repository's core:
* `ez-chajim-wozu-system.py` — `WozuValidator`, `EchtzeitKommunikator`
  (admission gate, shared message queue, batch report),
* `parser/wwaq_parser.py` — `WWAQGlossarParser.transformiere`
  (ordered rule-based rewriting with a change audit log).

Python floats are modelled as `ℚ` (all score arithmetic in the source is
sums of the decimal constants 0.1/0.15/0.2/0.3 with `min`-caps, exact in
both semantics), Python lists as `List`, dicts in insertion order as
association lists, and fallible operations (attribute errors, division by
zero, list indexing) as `Option`.  Timestamps and print formatting are
omitted: the spec excludes them from every contract (determinism is
"modulo timestamps").
-/

/-- `PardesLevel` from `src/pardes/core/pardes_system.py` (lines 35-40). -/
inductive PardesLevel where
  | PSCHAT | REMEZ | DRASCH | SOD
deriving DecidableEq, Repr

/-- Modelled from the spec: the four-world register classification `Olam`
comes from `src.azilut_konverter`, a module of this repository that is not
under `src/`; the spec (§3, §6) treats it as a fixed message-level
world/register enumeration, of which the source uses the member `ASIJA`. -/
inductive Olam where
  | AZILUT | BERIJA | JEZIRA | ASIJA
deriving DecidableEq, Repr

/-- Modelled from the spec: `HNS10SpiralTime.current_spiral_time()` is the
cyclical numeric "grade" calculator, "used only as decorative metadata"
(§1); its module is not under `src/`.  Only its opaque payload matters. -/
structure SpiralZeit where
  daten : String
deriving DecidableEq, Repr

/-- `FrageTyp` enum (ez-chajim-wozu-system.py lines 29-37). -/
inductive FrageTyp where
  | WOZU | WARUM | WIE | WAS | WER | WO | WANN
deriving DecidableEq, Repr

/-- `WozuValidierung` dataclass (lines 40-47). -/
structure WozuValidierung where
  ist_verankert : Bool
  azilut_score : ℚ
  fehlende_wozu_aspekte : List String
  empfohlene_korrekturen : List String
  weltebene : Olam
deriving DecidableEq, Repr

/-- `EchtzeitNachricht` dataclass (lines 50-61).  Note: the dataclass has
NO field named `weltebene`; `zeitstempel` is omitted (timestamp). -/
structure EchtzeitNachricht where
  inhalt : String
  wozu : String
  sender_modul : String
  empfaenger_modul : String
  frage_hierarchie : List (FrageTyp × String)
  pardes_ebene : Option PardesLevel
  spiral_zeit : Option SpiralZeit
  validierung : Option WozuValidierung
deriving DecidableEq, Repr

/-- Contiguous-sublist test: does `teil` occur somewhere in `ganz`? -/
def istTeilliste (teil : List Char) : List Char → Bool
  | [] => teil.isEmpty
  | c :: rest => teil.isPrefixOf (c :: rest) || istTeilliste teil rest

/-- Python substring containment `teil in ganz` on strings. -/
def enthaelt (teil ganz : String) : Bool :=
  istTeilliste teil.toList ganz.toList

/-- Python `str.lower()` restricted to the characters occurring in this
codebase: ASCII letters and the German capitals; Hebrew has no case. -/
def kleinbuchstabe (c : Char) : Char :=
  if c = 'Ä' then 'ä' else if c = 'Ö' then 'ö' else if c = 'Ü' then 'ü'
  else c.toLower

/-- `text.lower()` for a whole string (character-wise). -/
def pyLower (s : String) : String := ⟨s.toList.map kleinbuchstabe⟩

/-- `WozuValidator.WOZU_INDIKATOREN` (lines 67-70). -/
def WOZU_INDIKATOREN : List String :=
  ["um zu", "damit", "zwecks", "zur", "für die",
   "למען", "כדי", "לשם", "בשביל"]

/-- `WozuValidator.AZILUT_MARKER` (lines 72-75). -/
def AZILUT_MARKER : List String :=
  ["אין סוף", "unendliches Licht", "Emanation",
   "höchste Absicht", "göttlicher Zweck", "Tiqqun"]

/-- `FrageTyp.WOZU in nachricht.frage_hierarchie` (dict-key membership). -/
def hatFrage (t : FrageTyp) (n : EchtzeitNachricht) : Bool :=
  n.frage_hierarchie.any (fun p => p.1 == t)

/-- `WozuValidator._berechne_azilut_score` (lines 103-125). -/
def berechne_azilut_score (n : EchtzeitNachricht) : ℚ :=
  -- Wozu vorhanden: Basis-Score
  let score : ℚ := if n.wozu ≠ "" then 0.3 else 0
  -- Wozu-Indikatoren im Text
  let wozu_count : ℚ :=
    (WOZU_INDIKATOREN.filter (fun ind => enthaelt ind (pyLower n.wozu))).length
  let score := score + min (wozu_count * 0.1) 0.2
  -- Azilut-Marker
  let azilut_count : ℚ :=
    (AZILUT_MARKER.filter
      (fun m => enthaelt m n.inhalt || enthaelt m n.wozu)).length
  let score := score + min (azilut_count * 0.15) 0.3
  -- Frage-Hierarchie korrekt?
  let score := score + if hatFrage FrageTyp.WOZU n then 0.2 else 0
  min score 1.0

/-- The attribute access `nachricht.weltebene` (line 142).
`EchtzeitNachricht` declares no field `weltebene` (lines 50-61) and nothing
in the module ever sets one, so in Python this access raises
`AttributeError` for every message; modelled as `none`. -/
def weltebene_attr (_n : EchtzeitNachricht) : Option Olam := none

/-- `WozuValidator._finde_fehlende_aspekte` (lines 132-145).  The third
check reads `nachricht.weltebene`, a field the message type does not have,
so the whole computation fails after the first two checks. -/
def finde_fehlende_aspekte (n : EchtzeitNachricht) : Option (List String) :=
  let fehlend :=
    (if ¬ hatFrage FrageTyp.WOZU n then ["Wozu-Frage nicht in Hierarchie"] else [])
    ++ (if ¬ WOZU_INDIKATOREN.any (fun ind => enthaelt ind (pyLower n.wozu))
        then ["Keine klaren Zweck-Indikatoren"] else [])
  match weltebene_attr n with
  | none => none
  | some w =>
      some (fehlend ++
        (if w = Olam.ASIJA then ["Zu stark in Asija (Handlung) verhaftet"] else []))

/-- The per-finding suggestion of `_generiere_korrekturen` (lines 151-157):
first matching `if`/`elif` branch wins, unrecognised findings get none. -/
def korrektur_fuer (fehler : String) : Option String :=
  if enthaelt "Wozu-Frage" fehler then
    some "Füge primäre Wozu-Frage hinzu: \x27Wozu dient diese Kommunikation?\x27"
  else if enthaelt "Zweck-Indikatoren" fehler then
    some "Verwende klare Zweck-Formulierungen: \x27um zu...\x27, \x27damit...\x27"
  else if enthaelt "Asija" fehler then
    some "Erhebe Perspektive: Von WAS (Asija) zu WOZU (Azilut)"
  else none

/-- The unconditional final reminder of `_generiere_korrekturen` (line 160). -/
def WWAQ_ERINNERUNG : String :=
  "Verwende WWAQ-konforme Sprache: wandeln statt wandeln, bersten statt bersten"

/-- `WozuValidator._generiere_korrekturen` (lines 147-162). -/
def generiere_korrekturen (fehlende : List String) : List String :=
  fehlende.filterMap korrektur_fuer ++ [WWAQ_ERINNERUNG]

/-- The verdict of the empty-purpose short-circuit (lines 81-88). -/
def kein_wozu_verdikt : WozuValidierung :=
  { ist_verankert := false
    azilut_score := 0.0
    fehlende_wozu_aspekte := ["Kein Wozu definiert!"]
    empfohlene_korrekturen := ["Definiere klaren Zweck/Absicht"]
    weltebene := Olam.ASIJA }

/-- `WozuValidator.validiere_wozu_zentrierung` (lines 77-101).
`erkenne_weltebene` delegates to `AzilutKonverter.erkenne_weltebene`
(module not under `src/`; per spec §4.2/§6 a total classifier), passed
here as the parameter `klass`.  For non-empty `wozu` the call to
`_finde_fehlende_aspekte` fails (see `weltebene_attr`), so no verdict is
produced on that path. -/
def validiere_wozu_zentrierung (klass : String → Olam)
    (n : EchtzeitNachricht) : Option WozuValidierung :=
  -- Basis-Prüfung: Ist Wozu definiert?
  if n.wozu = "" then
    some kein_wozu_verdikt
  else
    -- Tiefere Analyse
    let azilut_score := berechne_azilut_score n
    let weltebene := klass n.inhalt
    match finde_fehlende_aspekte n with
    | none => none
    | some fehlende =>
        some { ist_verankert := azilut_score > 0.7
               azilut_score := azilut_score
               fehlende_wozu_aspekte := fehlende
               empfohlene_korrekturen := generiere_korrekturen fehlende
               weltebene := weltebene }

/-- The "nothing found" sentinel of the interpretation collaborator
(`src/pardes/core/pardes_system.py` line 321, quoted at
ez-chajim-wozu-system.py line 206). -/
def PARDES_SENTINEL : String := "Die Geheimnisse bleiben verborgen"

/-- The level-selection loop of `sende_nachricht` (lines 204-208): pick the
highest of SOD > DRASCH > REMEZ > PSCHAT whose interpretation is not the
sentinel.  `interp` abstracts `PardesAnalyzer.analyze_text` (the
four-strategy interpretation module, excluded from the core by spec §1/§6). -/
def waehle_pardes_ebene (interp : PardesLevel → String) : Option PardesLevel :=
  [PardesLevel.SOD, PardesLevel.DRASCH,
   PardesLevel.REMEZ, PardesLevel.PSCHAT].find?
    (fun e => interp e != PARDES_SENTINEL)

/-- The rejection warning printed by `sende_nachricht` (lines 190-193):
score, the full missing-aspects list, and `empfohlene_korrekturen[0]`. -/
structure Warnung where
  azilut_score : ℚ
  fehlend : List String
  empfehlung : String
deriving DecidableEq, Repr

/-- Result of one `sende_nachricht` call: the returned `bool`, the shared
queue afterwards, and the warning surfaced on rejection (if any). -/
structure GateErgebnis where
  erfolgreich : Bool
  queue : List EchtzeitNachricht
  warnung : Option Warnung
deriving DecidableEq, Repr

/-- Step 0 of `sende_nachricht` (lines 181-182): rewrite `inhalt` and
`wozu` through `GlossarManager.transform`.  The transformation table is
loaded from an external YAML file (spec §6, rule source), so `transform`
is passed in as the parameter `tf`. -/
def normalisiere (tf : String → String) (n : EchtzeitNachricht) : EchtzeitNachricht :=
  { n with inhalt := tf n.inhalt, wozu := tf n.wozu }

/-- Steps 2-3 of the acceptance branch of `sende_nachricht` (lines
197-208): attach the spiral-time metadata and, when no Pardes level is set
yet, the level selected from the interpretation collaborator. -/
def setze_metadaten (sz : SpiralZeit) (interp : String → PardesLevel → String)
    (n : EchtzeitNachricht) : EchtzeitNachricht :=
  let n := { n with spiral_zeit := some sz }
  if n.pardes_ebene.isNone
  then { n with pardes_ebene := waehle_pardes_ebene (interp n.inhalt) }
  else n

/-- `EchtzeitKommunikator.sende_nachricht` (lines 177-218) over an explicit
queue (the `asyncio.Queue` as a FIFO list; `put` appends at the back).
`none` models an uncaught exception: either `validiere_wozu_zentrierung`
failing (see `weltebene_attr`) or `empfohlene_korrekturen[0]` on an empty
list.  `sz` stands for `HNS10SpiralTime.current_spiral_time()` and
`interp` for the external interpretation collaborator. -/
def sende_nachricht (tf : String → String) (klass : String → Olam)
    (sz : SpiralZeit) (interp : String → PardesLevel → String)
    (n : EchtzeitNachricht) (queue : List EchtzeitNachricht) :
    Option GateErgebnis :=
  -- 0. WWAQ-Konformität sicherstellen / 1. Validiere Wozu-Zentrierung
  match validiere_wozu_zentrierung klass (normalisiere tf n) with
  | none => none
  | some validierung =>
    if validierung.ist_verankert then
      -- 2./3. Metadaten, 4. Sende an Queue
      some { erfolgreich := true
             queue := queue ++ [setze_metadaten sz interp
               { normalisiere tf n with validierung := some validierung }]
             warnung := none }
    else
      -- Blockiere nicht-verankerte Nachrichten (lines 189-195)
      match validierung.empfohlene_korrekturen with
      | [] => none
      | k :: _ =>
          some { erfolgreich := false
                 queue := queue
                 warnung := some { azilut_score := validierung.azilut_score
                                   fehlend := validierung.fehlende_wozu_aspekte
                                   empfehlung := k } }

/-- `EchtzeitKommunikator.empfange_nachrichten` (lines 220-226) run over a
finite queue until it is empty.  The source loop `get()`s from the single
shared queue — removing the message — and `yield`s it only when
`empfänger_modul` matches; non-matching messages are simply dropped.
Returns (messages yielded to `modul`, queue contents afterwards); the
second component is `[]` because every `get()` removes its message. -/
def empfange_nachrichten (modul : String) :
    List EchtzeitNachricht → List EchtzeitNachricht × List EchtzeitNachricht
  | [] => ([], [])
  | n :: rest =>
      let r := empfange_nachrichten modul rest
      (if n.empfaenger_modul = modul then n :: r.1 else r.1, r.2)

/-- The aggregate content of `generiere_wozu_bericht`; the rendered report
lines, timestamps, and the frequency-sorted presentation of the world
distribution and the top-5 remediation strings are formatting of these
values and are not modelled. -/
structure WozuBericht where
  anzahl : Nat
  verankert : Nat
  verankert_prozent : ℚ
  durchschnitt_score : ℚ
  weltebenen : List (Olam × Nat)
  alle_empfehlungen : List String
deriving DecidableEq, Repr

/-- `EchtzeitKommunikator.generiere_wozu_bericht` (lines 250-300).
`none` models the `ZeroDivisionError` of
`sum(...) / len(nachrichten)` (lines 262-263) — and of
`verankert/len(nachrichten)*100` (line 266) — when `nachrichten` is empty. -/
def generiere_wozu_bericht (ns : List EchtzeitNachricht) : Option WozuBericht :=
  let verankert :=
    (ns.filter (fun n => match n.validierung with
                         | some v => v.ist_verankert
                         | none => false)).length
  let summe : ℚ :=
    (ns.filterMap (fun n => n.validierung)).foldl
      (fun acc v => acc + v.azilut_score) 0
  if ns.length = 0 then none
  else
    some { anzahl := ns.length
           verankert := verankert
           verankert_prozent := (verankert : ℚ) / ns.length * 100
           durchschnitt_score := summe / ns.length
           weltebenen :=
             [Olam.AZILUT, Olam.BERIJA, Olam.JEZIRA, Olam.ASIJA].map
               (fun w => (w, (ns.filter (fun n =>
                 match n.validierung with
                 | some v => v.weltebene == w
                 | none => false)).length))
           alle_empfehlungen :=
             ns.foldl (fun acc n =>
               match n.validierung with
               | some v => if v.ist_verankert then acc
                           else acc ++ v.empfohlene_korrekturen
               | none => acc) [] }

/-- Word characters for Python's `\b` (`\w`), restricted to the character
classes occurring in this codebase: ASCII alphanumerics, underscore, the
German letters, and the Hebrew block. -/
def istWortZeichen (c : Char) : Bool :=
  c.isAlphanum || c = '_' ||
  c ∈ ['ä', 'ö', 'ü', 'ß', 'Ä', 'Ö', 'Ü'] ||
  (0x0590 ≤ c.toNat && c.toNat ≤ 0x05FF)

/-- `\b` holds before position `i` of `s` (for a pattern starting with a
word character): `i` is the start of the string or follows a non-word
character. -/
def wortgrenzeLinks (s : List Char) (i : Nat) : Bool :=
  i == 0 ||
  match s.get? (i - 1) with
  | some c => !istWortZeichen c
  | none => true

/-- `\b` holds at position `j` of `s` (for a pattern ending with a word
character): `j` is the end of the string or holds a non-word character. -/
def wortgrenzeRechts (s : List Char) (j : Nat) : Bool :=
  match s.get? j with
  | some c => !istWortZeichen c
  | none => true

/-- The literal word `w` matches `r'\b' + w + r'\b'` at position `i` of `s`. -/
def passtBei (w s : List Char) (i : Nat) : Bool :=
  ((s.drop i).take w.length == w) &&
  wortgrenzeLinks s i && wortgrenzeRechts s (i + w.length)

/-- All match positions of `re.finditer(r'\b w \b', s)`, ascending.  Every
pattern of the rule table is a literal word of word characters, so two
boundary matches can never overlap (a later overlapping start would sit
directly after a word character) and `finditer`'s non-overlapping
left-to-right scan returns exactly these positions. -/
def findeAlle (w s : List Char) : List Nat :=
  (List.range s.length).filter (fun i => passtBei w s i)

/-- Splice the replacement `r` for the `w.length`-wide matches at the given
ascending, non-overlapping absolute positions; `i` is the absolute index of
the head of `rest`. -/
def spleissen (w r : List Char) : List Nat → List Char → Nat → List Char
  | [], rest, _ => rest
  | p :: ps, rest, i =>
      rest.take (p - i) ++ r ++
        spleissen w r ps (rest.drop (p + w.length - i)) (p + w.length)

/-- `re.sub(r'\b w \b', r, s)` for a literal word `w`. -/
def re_sub (w r s : List Char) : List Char :=
  spleissen w r (findeAlle w s) s 0

/-- Python slice `s[a:b]` for `0 ≤ a ≤ b` (both ends clamped to bounds). -/
def pySlice (s : List Char) (a b : Nat) : List Char :=
  (s.take b).drop a

/-- One entry of the audit log of `transformiere` (wwaq_parser.py lines
137-144); `zeitstempel` omitted (timestamp). -/
structure Aenderung where
  kategorie : String
  original : List Char
  ersatz : List Char
  position : Nat
  kontext : List Char
deriving DecidableEq, Repr

/-- The body of the inner rule loop of `transformiere` (lines 127-144):
find all matches in the current text, substitute, and record one change
per match — `position` is `match.start()` measured in the text BEFORE this
substitution, while `kontext` slices the text AFTER it using the
pre-substitution offsets `match.start()-20 : match.end()+20`. -/
def wendeRegelAn (kategorie muster ersatz : String) (s : List Char) :
    List Char × List Aenderung :=
  let w := muster.toList
  let r := ersatz.toList
  match findeAlle w s with
  | [] => (s, [])
  | ms =>
      let s2 := re_sub w r s
      (s2, ms.map (fun p =>
        { kategorie := kategorie
          original := w
          ersatz := r
          position := p
          kontext := pySlice s2 (p - 20) (p + w.length + 20) }))

/-- Category `k_zu_q` of `_initialisiere_transformationen` (lines 47-58);
each pair `(w, e)` stands for the rule `r'\b w \b' → e`. -/
def k_zu_q_regeln : List (String × String) :=
  [("WWAK", "WWAQ"), ("Kabbala", "Qabbala"), ("Kabbalah", "Qabbala"),
   ("kabbalistisch", "qabbalistisch"), ("Kabbalist", "Qabbalist"),
   ("Kabbalisten", "Qabbalisten"), ("Kawana", "Qawana"),
   ("Kavanah", "Qawana"), ("Kavana", "Qawana")]

/-- Category `zer_elimination` (lines 59-96). -/
def zer_elimination_regeln : List (String × String) :=
  [("zerbrechen", "bersten"), ("zerbrach", "barst"),
   ("zerbrachen", "barsten"), ("zerbricht", "berstet"),
   ("zerbrochen", "geborsten"), ("Zerbrechen", "Bersten"),
   ("Zerbruch", "Bersten"),
   ("zerstören", "wandeln"), ("zerstört", "gewandelt"),
   ("zerstörte", "wandelte"), ("zerstörten", "wandelten"),
   ("zerstörend", "wandelnd"), ("Zerstörung", "Wandlung"),
   ("zerreißen", "öffnen"), ("zerriss", "öffnete"),
   ("zerrissen", "geöffnet"), ("zerreißt", "öffnet"),
   ("zerfallen", "sich wandeln"), ("zerfällt", "wandelt sich"),
   ("zerfiel", "wandelte sich"), ("zerfielen", "wandelten sich"),
   ("zerschlagen", "öffnen"), ("zerschlug", "öffnete"),
   ("zerschlägt", "öffnet"), ("verschwinden", "schwinden"),
   ("verschwand", "schwand"), ("verschwunden", "geschwunden")]

/-- Category `din_31636` (lines 97-106). -/
def din_31636_regeln : List (String × String) :=
  [("Tzimtzum", "Zimzum"), ("Tzimzum", "Zimzum"),
   ("Dvekut", "Dwekut"), ("Devekut", "Dwekut"),
   ("Tikkun", "Tiqqun"), ("Tikun", "Tiqqun"),
   ("Atzilut", "Azilut"), ("Atziluth", "Azilut")]

/-- `WWAQGlossarParser.transformationen`: the categories in dict insertion
order, each with its rules in insertion order. -/
def transformationen : List (String × List (String × String)) :=
  [("k_zu_q", k_zu_q_regeln),
   ("zer_elimination", zer_elimination_regeln),
   ("din_31636", din_31636_regeln)]

/-- `WWAQGlossarParser.transformiere` (lines 109-150) on the text as a
character list.  The `self.statistik` counter updates (lines 147-148) are
aggregate reporting state, contractually excluded from this operation's
result (spec §4.1/§9), and are not modelled. -/
def transformiere (text : List Char) : List Char × List Aenderung :=
  if text.isEmpty then ([], [])
  else
    transformationen.foldl (fun acc kat =>
      kat.2.foldl (fun acc2 regel =>
        let st := wendeRegelAn kat.1 regel.1 regel.2 acc2.1
        (st.1, acc2.2 ++ st.2)) acc)
      (text, [])

/-- `EchtzeitKommunikator.erstelle_wozu_zentrierte_nachricht` (lines
228-248): the question hierarchy starts with the WOZU entry and is
extended by the extra questions (whose kinds differ from WOZU in every
call site, so `dict.update` is an append). -/
def erstelle_wozu_zentrierte_nachricht (inhalt wozu sender empfaenger : String)
    (zusatz : List (FrageTyp × String)) : EchtzeitNachricht :=
  { inhalt := inhalt
    wozu := wozu
    sender_modul := sender
    empfaenger_modul := empfaenger
    frage_hierarchie := (FrageTyp.WOZU, wozu) :: zusatz
    pardes_ebene := none
    spiral_zeit := none
    validierung := none }

/-- A concrete world classifier standing in for
`AzilutKonverter.erkenne_weltebene`. -/
def klassA : String → Olam := fun _ => Olam.ASIJA

/-- A concrete spiral-time payload. -/
def szDemo : SpiralZeit := { daten := "5785" }

/-- A concrete interpretation collaborator: every register reports the
sentinel. -/
def interpDemo : String → PardesLevel → String := fun _ _ => PARDES_SENTINEL

/-- TEST 1 of `demonstriere_wozu_system` (lines 373-382): the
well-anchored demonstration message, with non-empty `wozu`. -/
def guteNachricht : EchtzeitNachricht :=
  erstelle_wozu_zentrierte_nachricht
    "בראשית ברא אלהים את השמים ואת הארץ"
    "um die Schöpfungsabsicht im unendlichen Licht zu erkennen und Tiqqun Olam zu fördern"
    "test-sender" "test-empfänger"
    [(FrageTyp.WARUM, "Weil alles aus אין סוף emaniert"),
     (FrageTyp.WIE, "Durch stufenweise Kontraktion (Zimzum)")]

/-- TEST 2 of `demonstriere_wozu_system` (lines 389-398): the message with
empty `wozu`. -/
def msgLeer : EchtzeitNachricht :=
  { inhalt := "Verarbeite diesen Text"
    wozu := ""
    sender_modul := "bad-sender"
    empfaenger_modul := "bad-empfänger"
    frage_hierarchie := [(FrageTyp.WAS, "Text"), (FrageTyp.WIE, "Schnell")]
    pardes_ebene := none
    spiral_zeit := none
    validierung := none }

/-- The spec's end-to-end scenario 2 (§8) as a message: purpose with one
indicator phrase, content with two domain-anchor markers, PURPOSE in the
hierarchy — its documented score is 0.3 + 0.1 + 0.3 + 0.2 = 0.9. -/
def szenario2Nachricht : EchtzeitNachricht :=
  erstelle_wozu_zentrierte_nachricht
    "Emanation und Tiqqun" "um zu lernen" "s" "e" []

/-- The spec's boundary message (§8): purpose with two indicator phrases,
no markers, PURPOSE in the hierarchy — score exactly
0.3 + 0.2 + 0 + 0.2 = 0.7. -/
def grenzwertNachricht : EchtzeitNachricht :=
  erstelle_wozu_zentrierte_nachricht
    "Text ohne Marker" "um zu damit" "s" "e" []

/-- A delivered message addressed to recipient module `modul-a`. -/
def nachrichtFuerA : EchtzeitNachricht :=
  { inhalt := "erste Nachricht"
    wozu := "um zu a"
    sender_modul := "s"
    empfaenger_modul := "modul-a"
    frage_hierarchie := []
    pardes_ebene := none
    spiral_zeit := none
    validierung := none }

/-- A delivered message addressed to recipient module `modul-b`. -/
def nachrichtFuerB : EchtzeitNachricht :=
  { inhalt := "zweite Nachricht"
    wozu := "um zu b"
    sender_modul := "s"
    empfaenger_modul := "modul-b"
    frage_hierarchie := []
    pardes_ebene := none
    spiral_zeit := none
    validierung := none }

/-- The input of the audit-position analysis: an earlier category rewrites
at offset 11, a later category shortens the text before that offset. -/
def demoText3 : List Char := "zerbrechen Kabbala".toList

/-- Helper: every verdict that `validiere_wozu_zentrierung` actually
returns is the empty-purpose short-circuit verdict, whose remediation list
is the non-empty singleton; on the analysis path `generiere_korrekturen`
always appends the reminder, so its output is non-empty as well. -/
theorem korrekturen_nichtleer (klass : String → Olam) (n : EchtzeitNachricht)
    (v : WozuValidierung)
    (h : validiere_wozu_zentrierung klass n = some v) :
    v.empfohlene_korrekturen ≠ [] := by
  unfold validiere_wozu_zentrierung at h
  by_cases hw : n.wozu = ""
  · simp [hw] at h
    subst h
    simp [kein_wozu_verdikt]
  · simp [hw, finde_fehlende_aspekte, weltebene_attr] at h


/-- Helper: for every message with non-empty `wozu`, validation reaches
`_finde_fehlende_aspekte`, whose `nachricht.weltebene` read fails, so no
verdict is returned. -/
theorem validiere_stuerzt_ab (klass : String → Olam) (n : EchtzeitNachricht)
    (h : n.wozu ≠ "") :
    validiere_wozu_zentrierung klass n = none := by
  unfold validiere_wozu_zentrierung
  simp [h, finde_fehlende_aspekte, weltebene_attr]

/-- Helper: the value of the scoring step, given the evaluated indicator
and marker counts and a hierarchy containing WOZU. -/
theorem berechne_wert (n : EchtzeitNachricht) (a b : Nat)
    (hw : n.wozu ≠ "")
    (ha : (WOZU_INDIKATOREN.filter fun ind => enthaelt ind (pyLower n.wozu)).length = a)
    (hb : (AZILUT_MARKER.filter fun m =>
            enthaelt m n.inhalt || enthaelt m n.wozu).length = b)
    (hf : hatFrage FrageTyp.WOZU n = true) :
    berechne_azilut_score n =
      min ((0.3 : ℚ) + min ((a : ℚ) * 0.1) 0.2 + min ((b : ℚ) * 0.15) 0.3 + 0.2) 1.0 := by
  unfold berechne_azilut_score
  rw [ha, hb]
  simp [hw, hf]

set_option maxRecDepth 100000

/-- Claim C1: the claim says `validiere_wozu_zentrierung` returns a
verdict and never raises for any message with non-empty purpose, with
`_finde_fehlende_aspekte` total.  The code violates this: for EVERY
message with non-empty `wozu`, `_finde_fehlende_aspekte` reads the
non-existent field `nachricht.weltebene` and raises `AttributeError`, so
validation never returns a verdict. -/
theorem C1_validiere_wirft_bei_nichtleerem_wozu
    (klass : String → Olam) (n : EchtzeitNachricht) (h : n.wozu ≠ "") :
    validiere_wozu_zentrierung klass n = none :=
  validiere_stuerzt_ab klass n h

/-- Witness for C1: the demonstration's own well-anchored TEST-1 message
has non-empty purpose and crashes the validator. -/
theorem C1_zeuge :
    guteNachricht.wozu ≠ "" ∧
    validiere_wozu_zentrierung klassA guteNachricht = none :=
  ⟨by decide, C1_validiere_wirft_bei_nichtleerem_wozu klassA guteNachricht (by decide)⟩

/-- Claim C2: the claim says draining recipient B first yields B's
messages and a later drain of A still yields A's messages.  The code
violates this: `empfange_nachrichten` filters ONE shared queue client-side
and silently drops non-matching messages, so after B drains, the message
addressed to `modul-a` is gone and A's drain yields nothing. -/
theorem C2_geteilte_queue_verliert_nachrichten :
    nachrichtFuerA.empfaenger_modul = "modul-a" ∧
    nachrichtFuerB.empfaenger_modul = "modul-b" ∧
    empfange_nachrichten "modul-b" [nachrichtFuerA, nachrichtFuerB] =
      ([nachrichtFuerB], []) ∧
    empfange_nachrichten "modul-a"
      (empfange_nachrichten "modul-b" [nachrichtFuerA, nachrichtFuerB]).2 =
      ([], []) := by
  refine ⟨rfl, rfl, ?_, rfl⟩
  simp [empfange_nachrichten, nachrichtFuerA, nachrichtFuerB]

/-- Claim C3: the claim says each ChangeRecord's `position` is the offset
of the replacement in the FINAL rewritten text and `kontext` a ±20 window
there.  The code violates this: on "zerbrechen Kabbala" the `k_zu_q`
record carries position 11 (its offset in the intermediate text), but in
the final text "bersten Qabbala" the replacement "Qabbala" sits at offset
8, and the recorded context "zerbrechen Qabbala" is not even a substring
of the final text. -/
theorem C3_position_nicht_im_endtext :
    (transformiere demoText3).1 = "bersten Qabbala".toList ∧
    ((transformiere demoText3).2.map fun a =>
        (a.kategorie, a.original, a.ersatz, a.position)) =
      [("k_zu_q", "Kabbala".toList, "Qabbala".toList, 11),
       ("zer_elimination", "zerbrechen".toList, "bersten".toList, 0)] ∧
    pySlice (transformiere demoText3).1 11 18 ≠ "Qabbala".toList ∧
    pySlice (transformiere demoText3).1 8 15 = "Qabbala".toList ∧
    ((transformiere demoText3).2.get? 0).map Aenderung.kontext =
      some "zerbrechen Qabbala".toList ∧
    istTeilliste "zerbrechen Qabbala".toList (transformiere demoText3).1 = false := by
  decide

/-- Claim C4: the claim says the batch report tolerates an empty message
sequence and never divides by zero.  The code violates this: with an empty
list, `sum(...) / len(nachrichten)` divides by zero; any non-empty list is
fine. -/
theorem C4_bericht_leere_liste :
    generiere_wozu_bericht [] = none ∧
    (generiere_wozu_bericht [guteNachricht]).isSome = true :=
  ⟨rfl, rfl⟩

/-- Claim C5: the claim says validate's score equals the clamped sum of
the four capped contributions and lies in [0,1].  The scoring step
`_berechne_azilut_score` does compute exactly that — the scenario-2
message scores 0.3 + 0.1 + 0.3 + 0.2 = 0.9, and the score is always in
[0,1] — but `validiere_wozu_zentrierung` crashes on `nachricht.weltebene`
before returning any verdict carrying that score. -/
theorem C5_score_formel_aber_kein_verdikt :
    (∀ n : EchtzeitNachricht,
       0 ≤ berechne_azilut_score n ∧ berechne_azilut_score n ≤ 1) ∧
    szenario2Nachricht.wozu ≠ "" ∧
    berechne_azilut_score szenario2Nachricht = 0.9 ∧
    validiere_wozu_zentrierung klassA szenario2Nachricht = none := by
  refine ⟨?_, by decide, ?_, validiere_stuerzt_ab klassA szenario2Nachricht (by decide)⟩
  · intro n
    unfold berechne_azilut_score
    dsimp only
    constructor
    · apply le_min
      · apply add_nonneg
        apply add_nonneg
        apply add_nonneg
        · split <;> norm_num
        · exact le_min (by positivity) (by norm_num)
        · exact le_min (by positivity) (by norm_num)
        · split <;> norm_num
      · norm_num
    · exact le_trans (min_le_right _ _) (by norm_num)
  · rw [berechne_wert szenario2Nachricht 1 2 (by decide) (by decide) (by decide) (by decide)]
    norm_num [min_def]

/-- Claim C6: the claim says anchored iff score strictly exceeds 0.7, a
message scoring exactly 0.70 being rejected (not anchored).  The code
violates the boundary behaviour: a concrete message scoring exactly 0.7
never receives a verdict at all — the validator and the sending gate both
crash on `nachricht.weltebene` instead of rejecting it. -/
theorem C6_grenzwert_kein_verdikt :
    berechne_azilut_score grenzwertNachricht = 0.7 ∧
    grenzwertNachricht.wozu ≠ "" ∧
    validiere_wozu_zentrierung klassA grenzwertNachricht = none ∧
    sende_nachricht id klassA szDemo interpDemo grenzwertNachricht [] = none := by
  have hnone : validiere_wozu_zentrierung klassA (normalisiere id grenzwertNachricht) = none :=
    validiere_stuerzt_ab klassA _ (by decide)
  refine ⟨?_, by decide, validiere_stuerzt_ab klassA grenzwertNachricht (by decide), ?_⟩
  · rw [berechne_wert grenzwertNachricht 2 0 (by decide) (by decide) (by decide) (by decide)]
    norm_num [min_def]
  · unfold sende_nachricht
    rw [hnone]

/-- Claim C7: a message with empty purpose — regardless of content and
hierarchy — immediately yields exactly the verdict (anchored = false,
score = 0.0, the single missing aspect "Kein Wozu definiert!", the single
remediation "Definiere klaren Zweck/Absicht"), and this short-circuit is
the only way that verdict arises. -/
theorem C7_kurzschluss_bei_leerem_wozu
    (klass : String → Olam) (n : EchtzeitNachricht) :
    validiere_wozu_zentrierung klass n = some kein_wozu_verdikt ↔ n.wozu = "" := by
  unfold validiere_wozu_zentrierung
  by_cases h : n.wozu = ""
  · simp [h]
  · simp [h, finde_fehlende_aspekte, weltebene_attr]

/-- Witness for C7: the demonstration's TEST-2 message with empty `wozu`
receives exactly the short-circuit verdict. -/
theorem C7_zeuge :
    validiere_wozu_zentrierung klassA msgLeer = some kein_wozu_verdikt :=
  (C7_kurzschluss_bei_leerem_wozu klassA msgLeer).mpr rfl

/-- Claim C8: whenever validation returns a non-anchored verdict, the gate
surfaces a warning carrying the score, the first remediation string and
the full missing-aspects list, reports failure, and leaves the delivery
queue untouched — the rejected message never reaches it. -/
theorem C8_ablehnung_ohne_zustellung
    (tf : String → String) (klass : String → Olam) (sz : SpiralZeit)
    (interp : String → PardesLevel → String) (n : EchtzeitNachricht)
    (q : List EchtzeitNachricht) (v : WozuValidierung)
    (hv : validiere_wozu_zentrierung klass (normalisiere tf n) = some v)
    (hna : v.ist_verankert = false) :
    ∃ k ks, v.empfohlene_korrekturen = k :: ks ∧
      sende_nachricht tf klass sz interp n q =
        some { erfolgreich := false
               queue := q
               warnung := some { azilut_score := v.azilut_score
                                 fehlend := v.fehlende_wozu_aspekte
                                 empfehlung := k } } := by
  obtain ⟨k, ks, hk⟩ : ∃ k ks, v.empfohlene_korrekturen = k :: ks := by
    cases hcl : v.empfohlene_korrekturen with
    | nil => exact absurd hcl (korrekturen_nichtleer klass (normalisiere tf n) v hv)
    | cons a l => exact ⟨a, l, rfl⟩
  refine ⟨k, ks, hk, ?_⟩
  unfold sende_nachricht
  rw [hv]
  simp [hna, hk]

/-- Witness for C8: the empty-purpose message is rejected by the gate with
the short-circuit verdict's data and the queue stays empty. -/
theorem C8_zeuge :
    ∃ k ks, kein_wozu_verdikt.empfohlene_korrekturen = k :: ks ∧
      sende_nachricht id klassA szDemo interpDemo msgLeer [] =
        some { erfolgreich := false
               queue := []
               warnung := some { azilut_score := kein_wozu_verdikt.azilut_score
                                 fehlend := kein_wozu_verdikt.fehlende_wozu_aspekte
                                 empfehlung := k } } :=
  C8_ablehnung_ohne_zustellung id klassA szDemo interpDemo msgLeer []
    kein_wozu_verdikt rfl rfl

/-- Counterexample for C9: the verdict actually returned for an
empty-purpose message has remediation ["Definiere klaren Zweck/Absicht"],
which does NOT end with the canonical-terminology reminder — refuting "for
every message, the remediation sequence of the Verdict returned by
validate ends with the fixed reminder". -/
theorem C9_gegenbeispiel :
    validiere_wozu_zentrierung klassA msgLeer = some kein_wozu_verdikt ∧
    kein_wozu_verdikt.empfohlene_korrekturen.getLast? ≠ some WWAQ_ERINNERUNG :=
  ⟨rfl, by decide⟩

/-- Claim C9 (amended): on the non-short-circuit analysis path, the
remediation generator `_generiere_korrekturen` appends the fixed
canonical-terminology reminder unconditionally as the last entry, for
every list of found missing aspects, independent of the score. -/
theorem C9_erinnerung_stets_angehaengt (fehlende : List String) :
    (generiere_korrekturen fehlende).getLast? = some WWAQ_ERINNERUNG := by
  unfold generiere_korrekturen
  exact List.getLast?_concat _

/-- Claim C10: every verdict validation actually returns carries a
non-empty remediation sequence, so the gate's rejection-path access
`empfohlene_korrekturen[0]` always finds a first element. -/
theorem C10_korrekturen_nie_leer
    (klass : String → Olam) (n : EchtzeitNachricht) (v : WozuValidierung)
    (h : validiere_wozu_zentrierung klass n = some v) :
    v.empfohlene_korrekturen ≠ [] ∧
    v.empfohlene_korrekturen.head?.isSome = true := by
  have hne := korrekturen_nichtleer klass n v h
  refine ⟨hne, ?_⟩
  cases hl : v.empfohlene_korrekturen with
  | nil => exact absurd hl hne
  | cons a l => simp

/-- Witness for C10: the verdict returned for the empty-purpose message
has a first remediation entry. -/
theorem C10_zeuge :
    kein_wozu_verdikt.empfohlene_korrekturen ≠ [] ∧
    kein_wozu_verdikt.empfohlene_korrekturen.head?.isSome = true :=
  C10_korrekturen_nie_leer klassA msgLeer kein_wozu_verdikt rfl
